import Mathlib

/-!
Verification development for the data-chatbot backend.

The Python services under `backend/app` are shallowly embedded as executable
Lean definitions: Python strings become `List Char`, the in-memory session
dictionary becomes an ordered association list, Python numbers become `Int`
and (for the float coercions of the visualization layer) exact rationals `ℚ`,
and fallible code returns `Option`.  Each definition is translated directly
from the corresponding Python function and keeps its name.
-/

namespace DataChatbot

/-! ## String model

Python `str` values are modelled as `List Char`.  The helpers below model the
exact Python primitives used by the services: `str.lower` (the inputs are
ASCII SQL text), `str.strip` with no argument, substring containment
(the `in` operator), whitespace `str.split`, `str.rfind`, and `int(...)`
parsing (optional sign followed by digits; digit-group underscores are not
modelled, no claim depends on them). -/

/-- Coerce a Lean string literal to the character-list model. -/
def str (s : String) : List Char := s.data

/-- The whitespace characters stripped by Python `str.strip()`. -/
def pyWhitespace (c : Char) : Bool :=
  c = ' ' || c = '\t' || c = '\n' || c = '\r' || c = '\x0b' || c = '\x0c'

/-- Python `str.strip()`: drop whitespace from both ends. -/
def pyStrip (l : List Char) : List Char :=
  ((l.dropWhile pyWhitespace).reverse.dropWhile pyWhitespace).reverse

/-- Python `str.lower()` on the ASCII text handled by the services. -/
def lower (l : List Char) : List Char := l.map Char.toLower

/-- Python substring containment `needle in haystack`. -/
def containsSub (needle : List Char) : List Char → Bool
  | [] => needle.isPrefixOf []
  | c :: rest => needle.isPrefixOf (c :: rest) || containsSub needle rest

/-- One pass of whitespace splitting, accumulating the current token in
reverse. -/
def splitWsAux (cur : List Char) : List Char → List (List Char)
  | [] => if cur.isEmpty then [] else [cur.reverse]
  | c :: rest =>
    if pyWhitespace c then
      if cur.isEmpty then splitWsAux [] rest
      else cur.reverse :: splitWsAux [] rest
    else splitWsAux (c :: cur) rest

/-- Python `str.split()` with no argument: split on runs of whitespace,
dropping empty tokens. -/
def splitWs (l : List Char) : List (List Char) := splitWsAux [] l

/-- Python `str.rfind(needle)`: index of the last occurrence, `none` when the
needle does not occur (Python returns -1 there). -/
def rfindSub (needle hay : List Char) : Option Nat :=
  (List.range (hay.length + 1)).reverse.find? (fun i => needle.isPrefixOf (hay.drop i))

/-- Numeric value of a decimal digit character. -/
def digitVal (c : Char) : Nat := c.toNat - 48

/-- Numeric value of a nonempty digit list, most significant first. -/
def digitsVal (l : List Char) : Nat := l.foldl (fun a c => a * 10 + digitVal c) 0

/-- Python `int(s)` on a token: optional sign then decimal digits, `none`
models a raised `ValueError`. -/
def pyInt? (l : List Char) : Option Int :=
  match l with
  | [] => none
  | '+' :: ds => if !ds.isEmpty && ds.all Char.isDigit then some (digitsVal ds : Int) else none
  | '-' :: ds => if !ds.isEmpty && ds.all Char.isDigit then some (-(digitsVal ds : Int)) else none
  | ds => if ds.all Char.isDigit then some (digitsVal ds : Int) else none

/-! ## SQL safety validator

Translated from `OpenAIService.validate_sql_safety`
(`backend/app/services/openai_service.py`, lines 247-274).  The Python code
lowercases and strips the query, then scans a fixed keyword list; for each
keyword it tests `keyword + " "` with the substring operator `in`, skips the
`create`/`update`/`delete` keywords when the corresponding column-name
substring occurs anywhere in the query, and rejects on the first remaining
hit; otherwise it requires the text to start with `select`. -/

/-- The denylist, in source order, without the trailing space the code
appends when testing containment. -/
def dangerous_keywords : List (List Char) :=
  [str "drop", str "delete", str "update", str "insert", str "alter",
   str "create", str "truncate", str "grant", str "revoke"]

/-- The carve-out in the loop body: `create`, `update` and `delete` are
skipped when the query contains the matching column-name substring anywhere. -/
def keyword_exempt (kw query_lower : List Char) : Bool :=
  (kw = str "create" &&
    (containsSub (str "created_at") query_lower || containsSub (str "create_") query_lower)) ||
  (kw = str "update" &&
    (containsSub (str "updated_at") query_lower || containsSub (str "update_") query_lower)) ||
  (kw = str "delete" &&
    (containsSub (str "deleted_at") query_lower || containsSub (str "delete_") query_lower))

/-- `OpenAIService.validate_sql_safety`: returns `(is_safe, reason)`. -/
def validate_sql_safety (sql_query : List Char) : Bool × List Char :=
  let query_lower := pyStrip (lower sql_query)
  match dangerous_keywords.find? (fun kw =>
      containsSub (kw ++ [' ']) query_lower && !keyword_exempt kw query_lower) with
  | some kw => (false, str "Dangerous SQL keyword detected: " ++ kw)
  | none =>
    if (str "select").isPrefixOf query_lower then (true, str "Query is safe")
    else (false, str "Only SELECT queries are allowed")

/-- Modelled from the claim text for C1 (refinement target, not from the
source): safe iff the trimmed lowercased text starts with `select` and no
denylisted keyword occurs as a space-delimited token.  Under the token
reading the carve-outs are vacuous, because `created_at` and the other
column names are never equal to a bare keyword token. -/
def claimed_sql_safe (sql_query : List Char) : Bool :=
  let query_lower := pyStrip (lower sql_query)
  (str "select").isPrefixOf query_lower &&
  dangerous_keywords.all (fun kw => !(splitWs query_lower).contains kw)

/-! ## Row-count heuristic

Translated from `OpenAIService._estimate_result_size`
(`backend/app/services/openai_service.py`, lines 227-245). -/

/-- The `try` block of the `limit` branch: take the text of the original
query from the last occurrence of `limit` (located in the lowercased copy),
split on whitespace, take the second token, cut it at the first `;`, and
parse it with `int`.  `none` models the caught `IndexError`/`ValueError`. -/
def extract_limit_value (sql_query query_lower : List Char) : Option Int :=
  match rfindSub (str "limit") query_lower with
  | none => none
  | some limit_pos =>
    match splitWs (sql_query.drop limit_pos) with
    | _ :: limit_part :: _ => pyInt? (limit_part.takeWhile (fun c => c != ';'))
    | _ => none

/-- `OpenAIService._estimate_result_size`. -/
def _estimate_result_size (sql_query : List Char) : Int :=
  let query_lower := lower sql_query
  if containsSub (str "count(") query_lower && !containsSub (str "group by") query_lower then 1
  else if containsSub (str "group by") query_lower then 50
  else if containsSub (str "limit") query_lower then
    match extract_limit_value sql_query query_lower with
    | some n => n
    | none => 100
  else 1000

/-! ## Session store

Translated from `AuthService` (`backend/app/services/auth_service.py`).
The in-memory dictionary `self.sessions : Dict[str, SessionData]` becomes an
ordered association list whose keys are unique for every store the service
can reach (tokens come from `secrets.token_urlsafe`).  `datetime.utcnow()`
is passed in explicitly as a natural-number instant. -/

/-- `SessionData` (`backend/app/models/auth.py`). -/
structure SessionData where
  username : String
  metabase_session_id : String
  user_id : Int
  expires_at : Nat
deriving DecidableEq, Repr

/-- The session dictionary, insertion ordered. -/
abbrev Store := List (String × SessionData)

/-- Python `self.sessions.get(token)`. -/
def lookupSession (st : Store) (tok : String) : Option SessionData :=
  (List.find? (fun p => p.1 = tok) st).map (fun p => p.2)

/-- Python `del self.sessions[token]`: the dictionary holds at most one entry
per key, so deletion removes every entry stored under the token. -/
def eraseSession (st : Store) (tok : String) : Store :=
  List.filter (fun p => !(p.1 = tok : Bool)) st

/-- `AuthService.validate_session` (lines 117-132): empty and unknown tokens
give `None`; an expired entry is deleted lazily and `None` is returned;
otherwise the session data is returned with the store unchanged. -/
def validate_session (now : Nat) (st : Store) (session_token : String) :
    Option SessionData × Store :=
  if session_token = "" then (none, st)
  else
    match lookupSession st session_token with
    | none => (none, st)
    | some session_data =>
      if session_data.expires_at < now then (none, eraseSession st session_token)
      else (some session_data, st)

/-- `AuthService.logout` (lines 134-158).  `ext_raises` models whether the
HTTP DELETE against the external BI platform raises; the `except` branch
still deletes the local entry (guarded by a containment check) and returns
`True`, so an external failure never prevents local cleanup. -/
def logout (ext_raises : Bool) (st : Store) (session_token : String) : Bool × Store :=
  match lookupSession st session_token with
  | none => (false, st)
  | some _ =>
    if ext_raises then
      (true, if (lookupSession st session_token).isSome then eraseSession st session_token else st)
    else
      (true, eraseSession st session_token)

/-- `AuthService.get_active_sessions_count` (lines 160-167): counts entries
with `expires_at > now`, without mutating the store. -/
def get_active_sessions_count (now : Nat) (st : Store) : Nat :=
  (List.filter (fun p => now < p.2.expires_at) st).length

/-- `AuthService.cleanup_expired_sessions` (lines 169-181): removes entries
with `expires_at <= now`. -/
def cleanup_expired_sessions (now : Nat) (st : Store) : Store :=
  List.filter (fun p => !(p.2.expires_at ≤ now : Bool)) st

/-- The store-mutating operations other than session creation: what a caller
can run against the service after a token has been evicted, without
re-creating the token. -/
inductive AuthOp where
  | validate (now : Nat) (tok : String)
  | doLogout (ext_raises : Bool) (tok : String)
  | cleanup (now : Nat)

/-- The store left behind by one operation. -/
def applyOp (st : Store) : AuthOp → Store
  | .validate now tok => (validate_session now st tok).2
  | .doLogout ext tok => (logout ext st tok).2
  | .cleanup now => cleanup_expired_sessions now st

/-- The store left behind by a sequence of operations. -/
def applyOps (st : Store) (ops : List AuthOp) : Store := ops.foldl applyOp st

/-! ## Dynamically typed cell values

The rows handed to `VisualizationService` hold dynamically typed scalars.
Python `int` and `float` are modelled separately (the `isinstance` tests of
the service distinguish `bool` from the numeric types); float arithmetic is
idealized as exact rational arithmetic, which is what the spec means by
exact sums (no claim exercises rounding). -/

/-- A Python scalar cell value. -/
inductive Value where
  | vnull
  | vint (n : Int)
  | vfloat (q : ℚ)
  | vstr (s : List Char)
  | vbool (b : Bool)
deriving DecidableEq

/-- `isinstance(v, str)`. -/
def isTextVal : Value → Bool
  | .vstr _ => true
  | _ => false

/-- `isinstance(v, (int, float)) and not isinstance(v, bool)`. -/
def isNumVal : Value → Bool
  | .vint _ => true
  | .vfloat _ => true
  | _ => false

/-- Decimal rendering of an integer, as Python `str(int)`. -/
def pyStrInt (n : Int) : List Char :=
  if n < 0 then '-' :: Nat.toDigits 10 n.natAbs else Nat.toDigits 10 n.natAbs

/-- Python `str(value)` for cell values.  String, boolean, null and integer
renderings follow Python; the decimal rendering of a float is not modelled
exactly (no claim depends on it), only injectively as numerator and
denominator. -/
def pyStr : Value → List Char
  | .vstr s => s
  | .vint n => pyStrInt n
  | .vbool true => str "True"
  | .vbool false => str "False"
  | .vnull => str "None"
  | .vfloat q => pyStrInt q.num ++ '.' :: Nat.toDigits 10 q.den

/-- Python `float(s)` on a string: optional sign, digits with at most one
decimal point, surrounding whitespace ignored; exponent and infinity forms
are not modelled (no claim depends on them).  `none` models `ValueError`. -/
def parseFloat? (l : List Char) : Option ℚ :=
  let t := pyStrip l
  let neg : Bool := match t with | '-' :: _ => true | _ => false
  let core : List Char := match t with | '+' :: r => r | '-' :: r => r | r => r
  let intPart := core.takeWhile (fun c => c != '.')
  let rest := core.dropWhile (fun c => c != '.')
  let ok : Bool × List Char := match rest with
    | [] => (!core.isEmpty, [])
    | _ :: frac => (!(frac.any (fun c => c = '.')) && !(intPart.isEmpty && frac.isEmpty), frac)
  match ok with
  | (true, frac) =>
    if intPart.all Char.isDigit && frac.all Char.isDigit then
      let mag : ℚ := (digitsVal intPart : ℚ) + (digitsVal frac : ℚ) / ((10 : ℚ) ^ frac.length)
      some (if neg then -mag else mag)
    else none
  | (false, _) => none

/-- Python `float(v)` on a cell value; `none` models a raised
`TypeError`/`ValueError`. -/
def toFloat? : Value → Option ℚ
  | .vint n => some (n : ℚ)
  | .vfloat q => some q
  | .vbool b => some (if b then 1 else 0)
  | .vstr s => parseFloat? s
  | .vnull => none

/-- A result row: the Python per-row dictionary, insertion ordered. -/
abbrev Row := List (String × Value)

/-- Python `row.get(col, default)`. -/
def rowGetD (row : Row) (col : String) (default : Value) : Value :=
  match List.find? (fun p => p.1 = col) row with
  | some p => p.2
  | none => default

/-- `QueryResult` (`backend/app/models/chat.py`). -/
structure QueryResult where
  data : List Row
  columns : List String
  row_count : Int
  execution_time_ms : ℚ

/-- `ChartType` (`backend/app/models/chat.py`). -/
inductive ChartType where
  | bar | line | pie | scatter | histogram | area
deriving DecidableEq

/-! ## Visualization service

Translated from `VisualizationService`
(`backend/app/services/visualization_service.py`). -/

/-- `self.max_categories`. -/
def max_categories : Nat := 15

/-- `data[0].get(col)` guarded by `if data else None`. -/
def sampleVal (data : List Row) (col : String) : Value :=
  match data with
  | [] => .vnull
  | row :: _ => rowGetD row col .vnull

/-- The first column whose first-row sample is a string, with the fallback
`columns[0] if columns else "category"` (lines 113-129). -/
def chooseTextCol (qr : QueryResult) : String :=
  match List.find? (fun c => isTextVal (sampleVal qr.data c)) qr.columns with
  | some c => c
  | none => qr.columns.headD "category"

/-- The first column whose first-row sample is numeric, with the fallback
`columns[1] if len(columns) > 1 else columns[0] if columns else "value"`
(lines 119-131). -/
def chooseNumericCol (qr : QueryResult) : String :=
  match List.find? (fun c => isNumVal (sampleVal qr.data c)) qr.columns with
  | some c => c
  | none =>
    match qr.columns with
    | _ :: c2 :: _ => c2
    | [c1] => c1
    | [] => "value"

/-- The group key of a row: `str(row.get(text_col, "Unknown"))`. -/
def barKey (text_col : String) (row : Row) : List Char :=
  pyStr (rowGetD row text_col (.vstr (str "Unknown")))

/-- The contribution of a row: `row.get(numeric_col, 0)` coerced by
`float(value) if value is not None else 0`, with the `except` branch turning
a failed coercion into the count increment `1`. -/
def barVal (numeric_col : String) (row : Row) : ℚ :=
  let value := rowGetD row numeric_col (.vint 0)
  if value = .vnull then 0
  else
    match toFloat? value with
    | some q => q
    | none => 1

/-- `aggregated[key] += value` on the insertion-ordered dictionary. -/
def bumpKey (agg : List (List Char × ℚ)) (k : List Char) (v : ℚ) :
    List (List Char × ℚ) :=
  match agg with
  | [] => [(k, v)]
  | (k', v') :: rest => if k' = k then (k', v' + v) :: rest else (k', v') :: bumpKey rest k v

/-- The aggregation loop of `_create_bar_data` (lines 134-148). -/
def aggregateRows (text_col numeric_col : String) (data : List Row) :
    List (List Char × ℚ) :=
  data.foldl (fun agg row => bumpKey agg (barKey text_col row) (barVal numeric_col row)) []

/-- The category cap (lines 150-154): when more than `max_categories`
categories exist, keep the top ones by value.  Python `sorted` with
`reverse=True` is a stable descending sort, modelled by `mergeSort` with the
reversed comparison. -/
def capCategories (agg : List (List Char × ℚ)) : List (List Char × ℚ) :=
  if max_categories < agg.length then
    (agg.mergeSort (fun a b => b.2 ≤ a.2)).take max_categories
  else agg

/-- The payload built by `_create_bar_data`. -/
structure BarData where
  labels : List (List Char)
  values : List ℚ
  x_label : String
  y_label : String
deriving DecidableEq

/-- `VisualizationService._create_bar_data` (lines 104-161). -/
def _create_bar_data (qr : QueryResult) : BarData :=
  let text_col := chooseTextCol qr
  let numeric_col := chooseNumericCol qr
  let aggregated := capCategories (aggregateRows text_col numeric_col qr.data)
  { labels := aggregated.map (fun p => p.1)
    values := aggregated.map (fun p => p.2)
    x_label := text_col
    y_label := numeric_col }

/-- The payload built by `_create_pie_data`. -/
structure PieData where
  labels : List (List Char)
  values : List ℚ
  total : ℚ
deriving DecidableEq

/-- `VisualizationService._create_pie_data` (lines 163-171). -/
def _create_pie_data (qr : QueryResult) : PieData :=
  let bar_data := _create_bar_data qr
  { labels := bar_data.labels
    values := bar_data.values
    total := bar_data.values.sum }

/-- The payload built by `_create_scatter_data`. -/
structure ScatterData where
  x_values : List ℚ
  y_values : List ℚ
  x_label : String
  y_label : String
deriving DecidableEq

/-- Column choice of `_create_scatter_data` (lines 178-192): collect the
first two columns whose first-row sample is numeric; when fewer than two are
found fall back to `columns[:2] if len(columns) >= 2 else columns +
["value"]`; then `x_col = numeric_cols[0]` and `y_col = numeric_cols[1] if
len(numeric_cols) > 1 else numeric_cols[0]`.  The fallback list is never
empty, so the final wildcard is unreachable. -/
def scatterCols (qr : QueryResult) : String × String :=
  let found := (qr.columns.filter (fun c => isNumVal (sampleVal qr.data c))).take 2
  let numeric_cols :=
    if found.length < 2 then
      if 2 ≤ qr.columns.length then qr.columns.take 2 else qr.columns ++ ["value"]
    else found
  match numeric_cols with
  | x :: y :: _ => (x, y)
  | [x] => (x, x)
  | [] => ("value", "value")

/-- Python `float(v) if v is not None else 0` inside the `try` block of the
scatter loop; `none` models a raised exception. -/
def scatterCoerce? (v : Value) : Option ℚ :=
  if v = .vnull then some 0 else toFloat? v

/-- One iteration of the scatter loop (lines 197-210): both coordinate
conversions run inside a single `try`, so if either raises, the shared
`except` branch zeroes both coordinates of the row. -/
def scatterPair (x_col y_col : String) (row : Row) : ℚ × ℚ :=
  let x_val := rowGetD row x_col (.vint 0)
  let y_val := rowGetD row y_col (.vint 0)
  match scatterCoerce? x_val, scatterCoerce? y_val with
  | some a, some b => (a, b)
  | _, _ => (0, 0)

/-- `VisualizationService._create_scatter_data` (lines 173-217). -/
def _create_scatter_data (qr : QueryResult) : ScatterData :=
  let cols := scatterCols qr
  let pairs := qr.data.map (scatterPair cols.1 cols.2)
  { x_values := pairs.map (fun p => p.1)
    y_values := pairs.map (fun p => p.2)
    x_label := cols.1
    y_label := cols.2 }

/-- Modelled from the claim text for C9 (refinement target, not from the
source): every value is coerced independently, substituting 0 exactly when
its own coercion fails or the value is null, leaving the paired value of the
same row unaffected. -/
def scatterPairClaimed (x_col y_col : String) (row : Row) : ℚ × ℚ :=
  ((scatterCoerce? (rowGetD row x_col (.vint 0))).getD 0,
   (scatterCoerce? (rowGetD row y_col (.vint 0))).getD 0)

/-- The scatter payload as the claim describes it (refinement target). -/
def _create_scatter_data_claimed (qr : QueryResult) : ScatterData :=
  let cols := scatterCols qr
  let pairs := qr.data.map (scatterPairClaimed cols.1 cols.2)
  { x_values := pairs.map (fun p => p.1)
    y_values := pairs.map (fun p => p.2)
    x_label := cols.1
    y_label := cols.2 }

/-- The chart payload variants built by `_create_chart_data`. -/
inductive ChartPayload where
  | bar (b : BarData)
  | pie (p : PieData)
  | scatter (s : ScatterData)
deriving DecidableEq

/-- `ChartData` (`backend/app/models/chat.py`); title and description are
carried as plain strings. -/
structure ChartData where
  chart_type : ChartType
  data : ChartPayload
  title : String
  description : String

/-- The `chart_type.value.title()` text of the chart title. -/
def chartTitleWord : ChartType → String
  | .bar => "Bar" | .line => "Line" | .pie => "Pie"
  | .scatter => "Scatter" | .histogram => "Histogram" | .area => "Area"

/-- `VisualizationService._create_chart_data` (lines 85-102): bar, pie and
scatter have their own builders; every other chart type defaults to the bar
construction. -/
def _create_chart_data (qr : QueryResult) (chart_type : ChartType) : ChartData :=
  let payload :=
    match chart_type with
    | .bar => ChartPayload.bar (_create_bar_data qr)
    | .pie => ChartPayload.pie (_create_pie_data qr)
    | .scatter => ChartPayload.scatter (_create_scatter_data qr)
    | _ => ChartPayload.bar (_create_bar_data qr)
  { chart_type := chart_type
    data := payload
    title := chartTitleWord chart_type ++ " Chart"
    description := "Showing " ++ toString qr.data.length ++ " records" }

/-- `VisualizationService.create_visualization` (lines 15-32): no chart when
the row list is empty or no chart type was suggested; the surrounding
`try`/`except` never fires on the closed value domain, every branch of the
builders is total. -/
def create_visualization (qr : QueryResult) (suggested_chart_type : Option ChartType) :
    Option ChartData :=
  match suggested_chart_type with
  | none => none
  | some ct => if qr.data.isEmpty then none else some (_create_chart_data qr ct)

/-! ## JSON-serialization coercion

Translated from `clean_data_for_json` (`backend/app/routes/chat.py`, lines
19-45); `DatabaseService.clean_data_for_serialization`
(`backend/app/services/database_service.py`, lines 149-175) is a textually
identical copy.  The closed set of input shapes: mapping, sequence, null,
JSON-safe scalar (int, float, str, bool), and the foreign scalars the code
dispatches on — a numeric numpy array (whose `tolist()` yields plain
numbers), a numpy scalar (whose `item()` yields a plain number), and any
other object that `json.dumps` rejects, stringified as a last resort. -/

/-- A Python value in the closed shape set handled by the coercion. -/
inductive PyVal where
  | pdict (entries : List (String × PyVal))
  | plist (items : List PyVal)
  | pnull
  | pint (n : Int)
  | pfloat (q : ℚ)
  | pstr (s : String)
  | pbool (b : Bool)
  | npArray (items : List Int)
  | npScalar (n : Int)
  | foreign (rendering : String)

mutual

/-- `clean_data_for_json`: numpy arrays become their `tolist()` lists, numpy
scalars their `item()` numbers, mappings and sequences are cleaned
recursively, null and JSON-safe scalars pass through, and anything
`json.dumps` rejects becomes its `str()` rendering. -/
def clean_data_for_json : PyVal → PyVal
  | .npArray xs => .plist (xs.map PyVal.pint)
  | .npScalar n => .pint n
  | .pdict es => .pdict (cleanEntries es)
  | .plist xs => .plist (cleanItems xs)
  | .pnull => .pnull
  | .pint n => .pint n
  | .pfloat q => .pfloat q
  | .pstr s => .pstr s
  | .pbool b => .pbool b
  | .foreign r => .pstr r

/-- The dict comprehension `{k: clean_data_for_json(v) for k, v in data.items()}`. -/
def cleanEntries : List (String × PyVal) → List (String × PyVal)
  | [] => []
  | (k, v) :: es => (k, clean_data_for_json v) :: cleanEntries es

/-- The list comprehension `[clean_data_for_json(item) for item in data]`. -/
def cleanItems : List PyVal → List PyVal
  | [] => []
  | x :: xs => clean_data_for_json x :: cleanItems xs

end

/-- `DatabaseService.clean_data_for_serialization`, a textually identical
copy of `clean_data_for_json`. -/
def clean_data_for_serialization : PyVal → PyVal := clean_data_for_json

/-! ## Query pipeline

Translated from `process_chat_query` (`backend/app/routes/chat.py`, lines
62-196), from the SQL-generation step onward.  The external collaborators
(schema fetch, the completion service, SQL execution) are modelled as an
environment holding their outcomes; wall-clock fields are out of the model. -/

/-- `QueryType` (`backend/app/models/chat.py`). -/
inductive QueryType where
  | table | chart | text | error
deriving DecidableEq

/-- `SQLQuery` (`backend/app/models/chat.py`). -/
structure SQLQuery where
  query : List Char
  explanation : String
  estimated_rows : Option Int := none

/-- `ChatResponse` (`backend/app/models/chat.py`), without the wall-clock
fields `processing_time_ms` and `timestamp`. -/
structure ChatResponse where
  query_type : QueryType
  sql_query : SQLQuery
  result : Option QueryResult := none
  chart : Option ChartData := none
  text_response : Option String := none
  error_message : Option (List Char) := none

/-- The outcomes of the external collaborators for one request: the
generated query, what `execute_sql_query` would do (`Except` carries the
exception text), and the chart suggestion of the completion service. -/
structure PipelineEnv where
  genSql : SQLQuery
  execOutcome : Except (List Char) QueryResult
  chartSuggestion : Option ChartType

/-- `process_chat_query`, steps 5 onward: validate safety, short-circuit on
an unsafe query, otherwise execute and select the presentation.  The second
component records whether SQL execution was attempted. -/
def process_chat_query (env : PipelineEnv) : ChatResponse × Bool :=
  let sql_query := env.genSql
  let safety := validate_sql_safety sql_query.query
  if !safety.1 then
    ({ query_type := .error
       sql_query := sql_query
       error_message := some (str "Unsafe SQL query: " ++ safety.2) }, false)
  else
    match env.execOutcome with
    | .error e =>
      ({ query_type := .error
         sql_query := sql_query
         error_message := some (str "SQL execution failed: " ++ e)
         text_response := some "The SQL was generated but failed to execute. Please check the query syntax." },
       true)
    | .ok query_result =>
      let chart_data :=
        match env.chartSuggestion with
        | some ct => create_visualization query_result (some ct)
        | none => none
      ({ query_type := if chart_data.isSome then .chart else .table
         sql_query := sql_query
         result := some query_result
         chart := chart_data
         text_response := some "Found results." }, true)

/-! ## Specification fixtures and lookup helper -/

/-- Dictionary lookup in the aggregation result, 0 when the key is absent;
used to state the per-label sum property. -/
def aggLookup (agg : List (List Char × ℚ)) (k : List Char) : ℚ :=
  match agg with
  | [] => 0
  | (k', v) :: rest => if k' = k then v else aggLookup rest k

/-- The worked bar-chart example of the spec:
rows `[{region:"east",sales:10},{region:"east",sales:5},{region:"west",sales:7}]`. -/
def barQrExample : QueryResult :=
  { data := [[("region", .vstr (str "east")), ("sales", .vint 10)],
             [("region", .vstr (str "east")), ("sales", .vint 5)],
             [("region", .vstr (str "west")), ("sales", .vint 7)]]
    columns := ["region", "sales"]
    row_count := 3
    execution_time_ms := 0 }

/-- A scatter input whose row has a numeric first coordinate and an
uncoercible second coordinate. -/
def scatterQrExample : QueryResult :=
  { data := [[("a", .vint 5), ("b", .vstr (str "oops"))]]
    columns := ["a", "b"]
    row_count := 1
    execution_time_ms := 0 }

/-- Twenty distinct categories with pairwise distinct values. -/
def capExample : List (List Char × ℚ) :=
  (List.range 20).map (fun i => (Nat.toDigits 10 i, (i : ℚ)))

/-! ## Helper lemmas -/

/-- A Boolean equivalence used to read `find?` conditions on the keyword
scan. -/
theorem bool_and_not_aux (a b : Bool) : ¬(a && !b) = true ↔ a = false ∨ b = true := by
  cases a <;> cases b <;> simp

/-- A needle that is a prefix of the haystack is contained in it. -/
theorem containsSub_of_isPrefixOf {n h : List Char} (hp : n.isPrefixOf h = true) :
    containsSub n h = true := by
  cases h with
  | nil => simpa [containsSub] using hp
  | cons c rest => simp [containsSub, hp]

/-! ## C1: SQL safety validator -/

/-- C1 counterexample.  The claim reads the denylist as space-delimited
tokens, under which `select backdrop from t` is safe; the code tests
`keyword + " "` with the substring operator, so the tail of `backdrop `
matches `drop ` and the query is rejected. -/
theorem claim_C1_counterexample :
    claimed_sql_safe (str "select backdrop from t") = true ∧
    (validate_sql_safety (str "select backdrop from t")).1 = false := by
  decide

/-- C1 amended: the validator, applied to any SQL text, returns safe if and
only if the text, after trimming and lowercasing, begins with `select` and,
for every denylisted keyword, either the keyword followed by a space does
not occur as a substring anywhere in the text, or the keyword is `create`,
`update` or `delete` and its column-name carve-out substring (`created_at`,
`create_`, `updated_at`, `update_`, `deleted_at`, `delete_`) occurs anywhere
in the text; the concrete examples of the claim behave as stated, and every
string not starting with `select` is unsafe regardless of the denylist. -/
theorem claim_C1_sql_safety :
    (∀ sql_query : List Char,
      (validate_sql_safety sql_query).1 = true ↔
        ((str "select").isPrefixOf (pyStrip (lower sql_query)) = true ∧
         ∀ kw ∈ dangerous_keywords,
           containsSub (kw ++ [' ']) (pyStrip (lower sql_query)) = false ∨
           keyword_exempt kw (pyStrip (lower sql_query)) = true)) ∧
    validate_sql_safety (str "SELECT * FROM orders") = (true, str "Query is safe") ∧
    validate_sql_safety (str "DROP TABLE orders") =
      (false, str "Dangerous SQL keyword detected: drop") ∧
    (validate_sql_safety (str "SELECT created_at FROM orders")).1 = true ∧
    (validate_sql_safety (str "UPDATE orders SET x=1")).1 = false ∧
    (∀ sql_query : List Char,
      (str "select").isPrefixOf (pyStrip (lower sql_query)) = false →
      (validate_sql_safety sql_query).1 = false) := by
  refine ⟨?_, by decide, by decide, by decide, by decide, ?_⟩
  · intro sql_query
    simp only [validate_sql_safety]
    cases hfind : List.find? (fun kw =>
        containsSub (kw ++ [' ']) (pyStrip (lower sql_query)) &&
        !keyword_exempt kw (pyStrip (lower sql_query))) dangerous_keywords with
    | none =>
      by_cases hsel : (str "select").isPrefixOf (pyStrip (lower sql_query)) = true
      · rw [if_pos hsel]
        constructor
        · intro _
          exact ⟨hsel, fun kw hkw =>
            (bool_and_not_aux _ _).mp (List.find?_eq_none.mp hfind kw hkw)⟩
        · intro _
          rfl
      · rw [if_neg hsel]
        constructor
        · intro h
          exact absurd h (by simp)
        · rintro ⟨hc, -⟩
          exact absurd hc hsel
    | some kw =>
      constructor
      · intro h
        exact absurd h (by simp)
      · rintro ⟨-, hforall⟩
        have hpred := List.find?_some hfind
        rw [Bool.and_eq_true] at hpred
        rcases hforall kw (List.mem_of_find?_eq_some hfind) with hno | hex
        · rw [hno] at hpred
          exact absurd hpred.1 (by simp)
        · rw [hex] at hpred
          exact absurd hpred.2 (by simp)
  · intro sql_query hsel
    simp only [validate_sql_safety]
    cases hfind : List.find? (fun kw =>
        containsSub (kw ++ [' ']) (pyStrip (lower sql_query)) &&
        !keyword_exempt kw (pyStrip (lower sql_query))) dangerous_keywords with
    | none => rw [if_neg (by simp [hsel])]
    | some kw => rfl

/-- C1 witness: the amended characterization applied at concrete inputs. -/
theorem claim_C1_sql_safety_witness :
    (validate_sql_safety (str "SELECT * FROM orders")).1 = true ∧
    (validate_sql_safety (str "ALTER TABLE orders")).1 = false := by
  constructor
  · exact claim_C1_sql_safety.1 (str "SELECT * FROM orders") |>.mpr (by decide)
  · exact claim_C1_sql_safety.2.2.2.2.2 (str "ALTER TABLE orders") (by decide)

/-! ## C8: row-count heuristic -/

/-- C8: the estimator returns 1 for a query containing `count(` without
`group by` (the bare aggregate of the claim), 50 for any query containing
`group by`, the parsed literal LIMIT value when a `limit` occurs and the
token after the last `limit` parses as an integer (100 when it does not),
and 1000 otherwise. -/
theorem claim_C8_estimate :
    ∀ sql_query : List Char,
      (containsSub (str "count(") (lower sql_query) = true ∧
       containsSub (str "group by") (lower sql_query) = false →
         _estimate_result_size sql_query = 1) ∧
      (containsSub (str "group by") (lower sql_query) = true →
         _estimate_result_size sql_query = 50) ∧
      (containsSub (str "count(") (lower sql_query) = false ∧
       containsSub (str "group by") (lower sql_query) = false ∧
       containsSub (str "limit") (lower sql_query) = true →
         _estimate_result_size sql_query =
           (extract_limit_value sql_query (lower sql_query)).getD 100) ∧
      (containsSub (str "count(") (lower sql_query) = false ∧
       containsSub (str "group by") (lower sql_query) = false ∧
       containsSub (str "limit") (lower sql_query) = false →
         _estimate_result_size sql_query = 1000) := by
  intro sql_query
  refine ⟨?_, ?_, ?_, ?_⟩
  · rintro ⟨hc, hg⟩
    unfold _estimate_result_size
    rw [if_pos (by simp [hc, hg])]
  · intro hg
    unfold _estimate_result_size
    rw [if_neg (by simp [hg]), if_pos hg]
  · rintro ⟨hc, hg, hl⟩
    unfold _estimate_result_size
    rw [if_neg (by simp [hc]), if_neg (by simp [hg]), if_pos hl]
    cases h : extract_limit_value sql_query (lower sql_query) <;> simp [h]
  · rintro ⟨hc, hg, hl⟩
    unfold _estimate_result_size
    rw [if_neg (by simp [hc]), if_neg (by simp [hg]), if_neg (by simp [hl])]

/-- C8 witness: the five heuristic shapes at concrete queries. -/
theorem claim_C8_estimate_witness :
    _estimate_result_size (str "SELECT COUNT(*) FROM orders") = 1 ∧
    _estimate_result_size (str "SELECT region, COUNT(*) FROM orders GROUP BY region") = 50 ∧
    _estimate_result_size (str "SELECT * FROM orders LIMIT 25") = 25 ∧
    _estimate_result_size (str "SELECT * FROM orders LIMIT foo") = 100 ∧
    _estimate_result_size (str "SELECT * FROM orders") = 1000 := by
  refine ⟨(claim_C8_estimate _).1 ⟨by decide, by decide⟩,
          (claim_C8_estimate _).2.1 (by decide), ?_, ?_,
          (claim_C8_estimate _).2.2.2 ⟨by decide, by decide, by decide⟩⟩
  · have h := (claim_C8_estimate (str "SELECT * FROM orders LIMIT 25")).2.2.1
      ⟨by decide, by decide, by decide⟩
    rw [h]; decide
  · have h := (claim_C8_estimate (str "SELECT * FROM orders LIMIT foo")).2.2.1
      ⟨by decide, by decide, by decide⟩
    rw [h]; decide

/-- A prefix of the first summand is a prefix of the whole append. -/
theorem isPrefixOf_append_left {n m : List Char} (t : List Char)
    (h : n.isPrefixOf m = true) : n.isPrefixOf (m ++ t) = true := by
  rw [ List.isPrefixOf_iff_prefix] at h ⊢
  exact h.trans (List.prefix_append m t)

/-! ## C2: unsafe SQL short-circuits the pipeline -/

/-- C2: whenever the generated SQL fails the safety validator, the pipeline
returns a response classified as error, whose error message is the literal
`Unsafe SQL query: ` followed by the validator reason (hence contains the
word `unsafe`, compared case-insensitively against the literal text
`Unsafe`), whose `sql_query.query` echoes the generated SQL verbatim, and
whose result is absent; execution is never attempted. -/
theorem claim_C2_unsafe_query :
    ∀ env : PipelineEnv, (validate_sql_safety env.genSql.query).1 = false →
      (process_chat_query env).1.query_type = QueryType.error ∧
      (process_chat_query env).1.error_message =
        some (str "Unsafe SQL query: " ++ (validate_sql_safety env.genSql.query).2) ∧
      (∀ msg, (process_chat_query env).1.error_message = some msg →
        containsSub (str "unsafe") (lower msg) = true) ∧
      (process_chat_query env).1.sql_query.query = env.genSql.query ∧
      (process_chat_query env).1.result = none ∧
      (process_chat_query env).2 = false := by
  intro env h
  have hproc : process_chat_query env =
      ({ query_type := .error
         sql_query := env.genSql
         error_message := some (str "Unsafe SQL query: " ++
           (validate_sql_safety env.genSql.query).2) }, false) := by
    simp only [process_chat_query]
    rw [if_pos (by rw [h]; rfl)]
  rw [hproc]
  refine ⟨rfl, rfl, ?_, rfl, rfl, rfl⟩
  intro msg hmsg
  have hm := Option.some.inj hmsg
  rw [← hm]
  have hlow : lower (str "Unsafe SQL query: " ++ (validate_sql_safety env.genSql.query).2) =
      str "unsafe sql query: " ++ lower (validate_sql_safety env.genSql.query).2 := by
    simp only [lower, List.map_append]
    congr 1
  rw [hlow]
  exact containsSub_of_isPrefixOf (isPrefixOf_append_left _ (by decide))

/-- C2 witness: the pipeline at a request whose generated SQL is
`DELETE FROM orders`. -/
theorem claim_C2_unsafe_query_witness :
    (validate_sql_safety (str "DELETE FROM orders")).1 = false ∧
    (process_chat_query ⟨⟨str "DELETE FROM orders", "", none⟩,
        Except.ok ⟨[], [], 0, 0⟩, none⟩).1.query_type = QueryType.error ∧
    (process_chat_query ⟨⟨str "DELETE FROM orders", "", none⟩,
        Except.ok ⟨[], [], 0, 0⟩, none⟩).1.sql_query.query = str "DELETE FROM orders" ∧
    (process_chat_query ⟨⟨str "DELETE FROM orders", "", none⟩,
        Except.ok ⟨[], [], 0, 0⟩, none⟩).1.result = none ∧
    (process_chat_query ⟨⟨str "DELETE FROM orders", "", none⟩,
        Except.ok ⟨[], [], 0, 0⟩, none⟩).2 = false := by
  have h := claim_C2_unsafe_query
    ⟨⟨str "DELETE FROM orders", "", none⟩, Except.ok ⟨[], [], 0, 0⟩, none⟩ (by decide)
  exact ⟨by decide, h.1, h.2.2.2.1, h.2.2.2.2.1, h.2.2.2.2.2⟩

/-! ## Session-store lemmas -/

/-- Membership in the erased store implies membership in the original. -/
theorem mem_eraseSession {st : Store} {tok : String} {p : String × SessionData}
    (h : p ∈ eraseSession st tok) : p ∈ st :=
  (List.mem_filter.mp h).1

/-- Every entry surviving an erase has a different key. -/
theorem eraseSession_key_ne {st : Store} {tok : String} :
    ∀ p ∈ eraseSession st tok, p.1 ≠ tok := by
  intro p hp
  have h := (List.mem_filter.mp hp).2
  simpa using h

/-- A token absent from every key is not found. -/
theorem lookupSession_eq_none_of_keys {st : Store} {tok : String}
    (h : ∀ p ∈ st, p.1 ≠ tok) : lookupSession st tok = none := by
  unfold lookupSession
  rw [List.find?_eq_none.mpr (fun p hp => by simpa using h p hp)]
  rfl

/-- Erasing a token removes it from the dictionary. -/
theorem lookup_eraseSession (st : Store) (tok : String) :
    lookupSession (eraseSession st tok) tok = none :=
  lookupSession_eq_none_of_keys (fun p hp => eraseSession_key_ne p hp)

/-- An absent token validates to `None` and leaves the store unchanged. -/
theorem validate_session_absent {now : Nat} {st : Store} {tok : String}
    (h : lookupSession st tok = none) : validate_session now st tok = (none, st) := by
  unfold validate_session
  by_cases h0 : tok = ""
  · rw [if_pos h0]
  · rw [if_neg h0, h]

/-- A live token validates to its session data, store unchanged. -/
theorem validate_session_live {now : Nat} {st : Store} {tok : String} {sd : SessionData}
    (hne : tok ≠ "") (h : lookupSession st tok = some sd) (hexp : ¬sd.expires_at < now) :
    validate_session now st tok = (some sd, st) := by
  unfold validate_session
  rw [if_neg hne, h]
  simp [hexp]

/-- An expired token validates to `None` and is erased. -/
theorem validate_session_expired {now : Nat} {st : Store} {tok : String} {sd : SessionData}
    (hne : tok ≠ "") (h : lookupSession st tok = some sd) (hexp : sd.expires_at < now) :
    validate_session now st tok = (none, eraseSession st tok) := by
  unfold validate_session
  rw [if_neg hne, h]
  simp [hexp]

/-- The store left by `validate_session` only keeps entries of the input. -/
theorem validate_session_snd_sub (now : Nat) (st : Store) (tok : String) :
    ∀ p ∈ (validate_session now st tok).2, p ∈ st := by
  by_cases h0 : tok = ""
  · unfold validate_session
    rw [if_pos h0]
    exact fun p hp => hp
  · cases h : lookupSession st tok with
    | none =>
      rw [validate_session_absent h]
      exact fun p hp => hp
    | some sd =>
      by_cases he : sd.expires_at < now
      · rw [validate_session_expired h0 h he]
        exact fun p hp => mem_eraseSession hp
      · rw [validate_session_live h0 h he]
        exact fun p hp => hp

/-- A live token logs out to `True` and is erased, whether or not the
external call raises. -/
theorem logout_some {st : Store} {tok : String} {sd : SessionData}
    (h : lookupSession st tok = some sd) (ext : Bool) :
    logout ext st tok = (true, eraseSession st tok) := by
  unfold logout
  rw [h]
  cases ext <;> simp [h]

/-- An absent token logs out to `False`, store unchanged. -/
theorem logout_none {st : Store} {tok : String}
    (h : lookupSession st tok = none) (ext : Bool) : logout ext st tok = (false, st) := by
  unfold logout
  rw [h]

/-- The store left by `logout` only keeps entries of the input. -/
theorem logout_snd_sub (ext : Bool) (st : Store) (tok : String) :
    ∀ p ∈ (logout ext st tok).2, p ∈ st := by
  cases h : lookupSession st tok with
  | none =>
    rw [logout_none h]
    exact fun p hp => hp
  | some sd =>
    rw [logout_some h]
    exact fun p hp => mem_eraseSession hp

/-- The store left by any non-creating operation only keeps entries of the
input store. -/
theorem applyOp_sub (st : Store) (op : AuthOp) : ∀ p ∈ applyOp st op, p ∈ st := by
  cases op with
  | validate now tok => exact validate_session_snd_sub now st tok
  | doLogout ext tok => exact logout_snd_sub ext st tok
  | cleanup now => exact fun p hp => (List.mem_filter.mp hp).1

/-- The store left by any sequence of non-creating operations only keeps
entries of the input store. -/
theorem applyOps_sub (st : Store) (ops : List AuthOp) :
    ∀ p ∈ applyOps st ops, p ∈ st := by
  induction ops generalizing st with
  | nil => exact fun p hp => hp
  | cons op ops ih =>
    intro p hp
    exact applyOp_sub st op p (ih (applyOp st op) p hp)

/-! ## C3: lazy eviction is permanent -/

/-- C3: a token not present in the store validates to absent; a stored
session whose expiry lies in the past validates to absent on the first call
after expiry and is removed, and after any further sequence of validate,
logout and cleanup calls (the token not being re-created) the token is still
absent: every later validation returns absent and no store entry — hence no
entry counted by `get_active_sessions_count` — is keyed by it.  The token
nonemptiness hypothesis reflects that issued tokens come from
`secrets.token_urlsafe(32)` and are never the empty string. -/
theorem claim_C3_session_eviction :
    ∀ (st : Store) (session_token : String) (now : Nat),
      (lookupSession st session_token = none →
        validate_session now st session_token = (none, st)) ∧
      (∀ sd : SessionData, session_token ≠ "" →
        lookupSession st session_token = some sd →
        sd.expires_at < now →
        validate_session now st session_token = (none, eraseSession st session_token) ∧
        (∀ (ops : List AuthOp) (now2 : Nat),
          (validate_session now2 (applyOps (eraseSession st session_token) ops)
              session_token).1 = none ∧
          ∀ p ∈ applyOps (eraseSession st session_token) ops, p.1 ≠ session_token)) := by
  intro st tok now
  constructor
  · exact fun h => validate_session_absent h
  · intro sd hne hlk hexp
    constructor
    · exact validate_session_expired hne hlk hexp
    · intro ops now2
      have habs : ∀ p ∈ applyOps (eraseSession st tok) ops, p.1 ≠ tok :=
        fun p hp => eraseSession_key_ne p (applyOps_sub (eraseSession st tok) ops p hp)
      refine ⟨?_, habs⟩
      rw [validate_session_absent (lookupSession_eq_none_of_keys habs)]

/-- C3 witness: a store holding one session expired at instant 100,
validated at instant 200 and probed again after further operations. -/
theorem claim_C3_session_eviction_witness :
    validate_session 200 [("tok", ⟨"alice", "mb", 1, 100⟩)] "tok" =
      (none, eraseSession [("tok", ⟨"alice", "mb", 1, 100⟩)] "tok") ∧
    (validate_session 300
        (applyOps (eraseSession [("tok", ⟨"alice", "mb", 1, 100⟩)] "tok")
          [AuthOp.cleanup 250]) "tok").1 = none := by
  have h := (claim_C3_session_eviction [("tok", ⟨"alice", "mb", 1, 100⟩)] "tok" 200).2
    ⟨"alice", "mb", 1, 100⟩ (by decide) (by decide) (by decide)
  exact ⟨h.1, (h.2 [AuthOp.cleanup 250] 300).1⟩

/-! ## C4: logout always cleans up locally -/

/-- C4: logout removes the local entry whenever one exists, whether or not
the external BI-platform call raises, and returns true exactly when an entry
existed; a second logout of the same token then returns false. -/
theorem claim_C4_logout :
    ∀ (st : Store) (session_token : String) (ext_raises : Bool),
      ((lookupSession st session_token).isSome = true →
        logout ext_raises st session_token = (true, eraseSession st session_token) ∧
        lookupSession (eraseSession st session_token) session_token = none) ∧
      (lookupSession st session_token = none →
        logout ext_raises st session_token = (false, st)) ∧
      ((lookupSession st session_token).isSome = true → ∀ ext2 : Bool,
        (logout ext2 (logout ext_raises st session_token).2 session_token).1 = false) := by
  intro st tok ext
  refine ⟨?_, ?_, ?_⟩
  · intro hs
    rcases Option.isSome_iff_exists.mp hs with ⟨sd, hlk⟩
    constructor
    · cases ext <;> simp [logout, hlk]
    · exact lookup_eraseSession st tok
  · intro hlk
    simp [logout, hlk]
  · intro hs ext2
    rcases Option.isSome_iff_exists.mp hs with ⟨sd, hlk⟩
    have h2 : (logout ext st tok).2 = eraseSession st tok := by
      cases ext <;> simp [logout, hlk]
    rw [h2]
    simp [logout, lookup_eraseSession st tok]

/-- C4 witness: logging out a live token twice, with the external call
raising on the first attempt. -/
theorem claim_C4_logout_witness :
    logout true [("tok", ⟨"alice", "mb", 1, 100⟩)] "tok" =
      (true, eraseSession [("tok", ⟨"alice", "mb", 1, 100⟩)] "tok") ∧
    (logout false (logout true [("tok", ⟨"alice", "mb", 1, 100⟩)] "tok").2 "tok").1 = false := by
  have h := claim_C4_logout [("tok", ⟨"alice", "mb", 1, 100⟩)] "tok" true
  exact ⟨(h.1 (by decide)).1, h.2.2 (by decide) false⟩

/-! ## C7: JSON coercion is total and idempotent -/

/-- A `tolist()` result — a list of plain numbers — is already clean. -/
theorem cleanItems_map_pint (xs : List Int) :
    cleanItems (xs.map PyVal.pint) = xs.map PyVal.pint := by
  induction xs with
  | nil => rfl
  | cons x xs ih => simp [cleanItems, clean_data_for_json, ih]

mutual

/-- Applying the coercion twice yields what one application yields. -/
theorem clean_data_idem (v : PyVal) :
    clean_data_for_json (clean_data_for_json v) = clean_data_for_json v :=
  match v with
  | .pdict es => by
    simp only [clean_data_for_json]
    rw [cleanEntries_idem es]
  | .plist xs => by
    simp only [clean_data_for_json]
    rw [cleanItems_idem xs]
  | .npArray xs => by
    simp only [clean_data_for_json]
    rw [cleanItems_map_pint xs]
  | .npScalar _ => rfl
  | .pnull => rfl
  | .pint _ => rfl
  | .pfloat _ => rfl
  | .pstr _ => rfl
  | .pbool _ => rfl
  | .foreign _ => rfl

/-- Idempotence for the dict comprehension. -/
theorem cleanEntries_idem (es : List (String × PyVal)) :
    cleanEntries (cleanEntries es) = cleanEntries es :=
  match es with
  | [] => rfl
  | (k, v) :: rest => by
    simp only [cleanEntries]
    rw [clean_data_idem v, cleanEntries_idem rest]

/-- Idempotence for the list comprehension. -/
theorem cleanItems_idem (xs : List PyVal) :
    cleanItems (cleanItems xs) = cleanItems xs :=
  match xs with
  | [] => rfl
  | x :: rest => by
    simp only [cleanItems]
    rw [clean_data_idem x, cleanItems_idem rest]

end

/-- C7: the JSON-serialization coercion, a total function over the closed
set of input shapes, is idempotent, and the copy in the database service is
the same function. -/
theorem claim_C7_clean_json_idempotent :
    (∀ v : PyVal, clean_data_for_json (clean_data_for_json v) = clean_data_for_json v) ∧
    (∀ v : PyVal, clean_data_for_serialization v = clean_data_for_json v) :=
  ⟨clean_data_idem, fun _ => rfl⟩

/-! ## Aggregation lemmas for C5 and C6 -/

/-- Updating one key shifts exactly that lookup by the added value. -/
theorem aggLookup_bumpKey (agg : List (List Char × ℚ)) (k' : List Char) (v : ℚ)
    (k : List Char) :
    aggLookup (bumpKey agg k' v) k = aggLookup agg k + (if k' = k then v else 0) := by
  induction agg with
  | nil => by_cases h : k' = k <;> simp [bumpKey, aggLookup, h]
  | cons hd rest ih =>
    obtain ⟨a, b⟩ := hd
    by_cases h1 : a = k'
    · subst h1
      by_cases h2 : a = k
      · subst h2
        simp [bumpKey, aggLookup]
      · simp [bumpKey, aggLookup, h2]
    · by_cases h2 : a = k
      · subst h2
        have hk : ¬k' = a := fun h => h1 h.symm
        simp [bumpKey, aggLookup, h1, hk]
      · simp [bumpKey, aggLookup, h1, h2, ih]

/-- Folding the aggregation loop over rows adds, per key, the coerced
contributions of exactly the rows grouped under that key. -/
theorem aggLookup_foldl (tc nc : String) (data : List Row)
    (agg : List (List Char × ℚ)) (k : List Char) :
    aggLookup (data.foldl (fun a row => bumpKey a (barKey tc row) (barVal nc row)) agg) k
      = aggLookup agg k +
        ((data.filter (fun r => barKey tc r = k)).map (barVal nc)).sum := by
  induction data generalizing agg with
  | nil => simp
  | cons r rest ih =>
    simp only [List.foldl_cons]
    rw [ih, aggLookup_bumpKey]
    by_cases h : barKey tc r = k
    · rw [List.filter_cons_of_pos (by simpa using h), List.map_cons, List.sum_cons]
      rw [if_pos h]
      ring
    · rw [List.filter_cons_of_neg (by simpa using h), if_neg h]
      ring

/-- The aggregate value at any label is the sum of the coerced contributions
of the rows grouped under it. -/
theorem aggLookup_aggregateRows (tc nc : String) (data : List Row) (k : List Char) :
    aggLookup (aggregateRows tc nc data) k
      = ((data.filter (fun r => barKey tc r = k)).map (barVal nc)).sum := by
  unfold aggregateRows
  rw [aggLookup_foldl]
  simp [aggLookup]

/-- A key appears after a bump iff it appeared before or is the bumped key. -/
theorem mem_keys_bumpKey {agg : List (List Char × ℚ)} {k : List Char} {v : ℚ}
    {l : List Char} :
    l ∈ (bumpKey agg k v).map Prod.fst ↔ l ∈ agg.map Prod.fst ∨ l = k := by
  induction agg with
  | nil => simp [bumpKey]
  | cons hd rest ih =>
    obtain ⟨a, b⟩ := hd
    by_cases h : a = k
    · subst h
      simp [bumpKey]
      tauto
    · simp [bumpKey, h, ih]
      tauto

/-- Bumping preserves distinctness of the dictionary keys. -/
theorem nodup_keys_bumpKey {agg : List (List Char × ℚ)} {k : List Char} {v : ℚ}
    (h : (agg.map Prod.fst).Nodup) : ((bumpKey agg k v).map Prod.fst).Nodup := by
  induction agg with
  | nil => simp [bumpKey]
  | cons hd rest ih =>
    obtain ⟨a, b⟩ := hd
    rw [List.map_cons, List.nodup_cons] at h
    by_cases hk : a = k
    · subst hk
      simpa [bumpKey, List.nodup_cons] using h
    · have hbk : bumpKey ((a, b) :: rest) k v = (a, b) :: bumpKey rest k v := by
        simp [bumpKey, hk]
      rw [hbk, List.map_cons, List.nodup_cons]
      refine ⟨fun hmem => ?_, ih h.2⟩
      rcases mem_keys_bumpKey.mp hmem with hin | heq
      · exact h.1 hin
      · exact hk heq

/-- The aggregation dictionary has distinct keys. -/
theorem nodup_keys_aggregateRows (tc nc : String) (data : List Row) :
    ((aggregateRows tc nc data).map Prod.fst).Nodup := by
  unfold aggregateRows
  have hgen : ∀ agg : List (List Char × ℚ), (agg.map Prod.fst).Nodup →
      ((data.foldl (fun a row => bumpKey a (barKey tc row) (barVal nc row)) agg).map
        Prod.fst).Nodup := by
    induction data with
    | nil => exact fun agg h => h
    | cons r rest ih =>
      intro agg h
      exact ih _ (nodup_keys_bumpKey h)
  exact hgen [] (by simp)

/-- With distinct keys, membership determines the lookup. -/
theorem aggLookup_of_mem {agg : List (List Char × ℚ)} {l : List Char} {v : ℚ}
    (hnd : (agg.map Prod.fst).Nodup) (h : (l, v) ∈ agg) : aggLookup agg l = v := by
  induction agg with
  | nil => cases h
  | cons hd rest ih =>
    obtain ⟨a, b⟩ := hd
    rw [List.map_cons, List.nodup_cons] at hnd
    rcases List.mem_cons.mp h with heq | hmem
    · obtain ⟨h1, h2⟩ := Prod.mk.injEq .. ▸ heq
      subst h1
      subst h2
      simp [aggLookup]
    · have hne : a ≠ l := by
        intro hal
        have hl : l ∈ List.map Prod.fst rest := List.mem_map_of_mem Prod.fst hmem
        rw [← hal] at hl
        exact hnd.1 hl
      have hstep : aggLookup ((a, b) :: rest) l = aggLookup rest l := by
        simp [aggLookup, hne]
      rw [hstep]
      exact ih hnd.2 hmem

/-- The capped dictionary only keeps entries of the aggregate. -/
theorem mem_capCategories {agg : List (List Char × ℚ)} {x : List Char × ℚ}
    (h : x ∈ capCategories agg) : x ∈ agg := by
  unfold capCategories at h
  split at h
  · exact List.mem_mergeSort.mp ((List.take_sublist _ _).subset h)
  · exact h

/-! ## C5: bar-chart aggregation -/

/-- C5: on the worked example the bar builder groups to east = 15 and
west = 7; and in general every (label, value) pair of the bar output carries
exactly the sum of the coerced contributions (the numeric value, or 0 for a
null or missing cell, or the count increment 1 when coercion fails) of the
rows grouped under that label. -/
theorem claim_C5_bar_aggregation :
    ((_create_bar_data barQrExample).labels = [str "east", str "west"] ∧
     (_create_bar_data barQrExample).values = [15, 7]) ∧
    (∀ (qr : QueryResult) (l : List Char) (v : ℚ),
      (l, v) ∈ ((_create_bar_data qr).labels.zip ((_create_bar_data qr).values)) →
      v = ((qr.data.filter (fun r => barKey (chooseTextCol qr) r = l)).map
            (barVal (chooseNumericCol qr))).sum) := by
  have hv1 : barVal "sales" [("region", Value.vstr (str "east")), ("sales", Value.vint 10)]
      = 10 := by
    simp only [barVal]
    rw [(by decide : rowGetD [("region", Value.vstr (str "east")), ("sales", Value.vint 10)]
      "sales" (Value.vint 0) = Value.vint 10)]
    rw [if_neg (by decide)]
    norm_num [toFloat?]
  have hv2 : barVal "sales" [("region", Value.vstr (str "east")), ("sales", Value.vint 5)]
      = 5 := by
    simp only [barVal]
    rw [(by decide : rowGetD [("region", Value.vstr (str "east")), ("sales", Value.vint 5)]
      "sales" (Value.vint 0) = Value.vint 5)]
    rw [if_neg (by decide)]
    norm_num [toFloat?]
  have hv3 : barVal "sales" [("region", Value.vstr (str "west")), ("sales", Value.vint 7)]
      = 7 := by
    simp only [barVal]
    rw [(by decide : rowGetD [("region", Value.vstr (str "west")), ("sales", Value.vint 7)]
      "sales" (Value.vint 0) = Value.vint 7)]
    rw [if_neg (by decide)]
    norm_num [toFloat?]
  have hstep : aggregateRows "region" "sales" barQrExample.data
      = [(str "east", 15), (str "west", 7)] := by
    simp only [aggregateRows, barQrExample, List.foldl_cons, List.foldl_nil]
    rw [(by decide : barKey "region"
          [("region", Value.vstr (str "east")), ("sales", Value.vint 10)] = str "east"),
        (by decide : barKey "region"
          [("region", Value.vstr (str "east")), ("sales", Value.vint 5)] = str "east"),
        (by decide : barKey "region"
          [("region", Value.vstr (str "west")), ("sales", Value.vint 7)] = str "west"),
        hv1, hv2, hv3]
    norm_num [bumpKey, str]
    decide
  have hagg : capCategories (aggregateRows (chooseTextCol barQrExample)
        (chooseNumericCol barQrExample) barQrExample.data)
      = [(str "east", 15), (str "west", 7)] := by
    rw [(by decide : chooseTextCol barQrExample = "region"),
        (by decide : chooseNumericCol barQrExample = "sales"), hstep]
    unfold capCategories
    rw [if_neg (by decide)]
  constructor
  · constructor
    · show List.map (fun p => p.1) (capCategories (aggregateRows (chooseTextCol barQrExample)
        (chooseNumericCol barQrExample) barQrExample.data)) = [str "east", str "west"]
      rw [hagg]
      decide
    · show List.map (fun p => p.2) (capCategories (aggregateRows (chooseTextCol barQrExample)
        (chooseNumericCol barQrExample) barQrExample.data)) = [15, 7]
      rw [hagg]
      rfl
  · intro qr l v hmem
    have hzip : ((_create_bar_data qr).labels).zip ((_create_bar_data qr).values)
        = capCategories (aggregateRows (chooseTextCol qr) (chooseNumericCol qr) qr.data) := by
      simp only [_create_bar_data]
      exact Eq.symm (List.zip_of_prod rfl rfl)
    rw [hzip] at hmem
    have hmem2 := mem_capCategories hmem
    have hnd := nodup_keys_aggregateRows (chooseTextCol qr) (chooseNumericCol qr) qr.data
    have hv := aggLookup_of_mem hnd hmem2
    rw [← hv, aggLookup_aggregateRows]

/-- C5 witness: the per-label sum equation instantiated at the label east of
the worked example. -/
theorem claim_C5_bar_aggregation_witness :
    (15 : ℚ) = ((barQrExample.data.filter
        (fun r => barKey (chooseTextCol barQrExample) r = str "east")).map
        (barVal (chooseNumericCol barQrExample))).sum := by
  apply claim_C5_bar_aggregation.2 barQrExample (str "east") 15
  rw [claim_C5_bar_aggregation.1.1, claim_C5_bar_aggregation.1.2]
  simp [List.zip]

/-! ## C6: category capping -/

/-- C6: when the aggregate holds more than 15 categories, the capped output
has exactly 15 entries, all drawn from the aggregate (no synthetic `other`
entry), and every kept entry has a value at least as large as every
discarded one — with pairwise distinct values this is exactly the 15
highest-valued categories; with 15 or fewer categories the aggregate is
returned unchanged. -/
theorem claim_C6_category_cap :
    ∀ agg : List (List Char × ℚ),
      (max_categories < agg.length →
        (capCategories agg).length = max_categories ∧
        (∀ x ∈ capCategories agg, x ∈ agg) ∧
        (∀ x ∈ capCategories agg, ∀ y ∈ agg, y ∉ capCategories agg → y.2 ≤ x.2)) ∧
      (agg.length ≤ max_categories → capCategories agg = agg) := by
  intro agg
  have htrans : ∀ a b c : List Char × ℚ,
      (fun a b : List Char × ℚ => (b.2 ≤ a.2 : Bool)) a b = true →
      (fun a b : List Char × ℚ => (b.2 ≤ a.2 : Bool)) b c = true →
      (fun a b : List Char × ℚ => (b.2 ≤ a.2 : Bool)) a c = true := by
    intro a b c hab hbc
    simp only [decide_eq_true_eq] at *
    exact le_trans hbc hab
  have htotal : ∀ a b : List Char × ℚ,
      ((fun a b : List Char × ℚ => (b.2 ≤ a.2 : Bool)) a b ||
       (fun a b : List Char × ℚ => (b.2 ≤ a.2 : Bool)) b a) = true := by
    intro a b
    rcases le_total a.2 b.2 with h | h <;> simp [h]
  constructor
  · intro hlen
    have hcap : capCategories agg =
        (agg.mergeSort (fun a b => b.2 ≤ a.2)).take max_categories := by
      unfold capCategories
      rw [if_pos hlen]
    have hperm := List.mergeSort_perm agg (fun a b => b.2 ≤ a.2)
    refine ⟨?_, fun x hx => mem_capCategories hx, ?_⟩
    · rw [hcap, List.length_take, List.length_mergeSort]
      exact Nat.min_eq_left (Nat.le_of_lt hlen)
    · intro x hx y hy hyn
      have hsorted := List.sorted_mergeSort htrans htotal agg
      have hsplit := List.take_append_drop max_categories
        (agg.mergeSort (fun a b => b.2 ≤ a.2))
      have hymem : y ∈ agg.mergeSort (fun a b => b.2 ≤ a.2) := List.mem_mergeSort.mpr hy
      rw [← hsplit] at hsorted hymem
      rcases List.mem_append.mp hymem with hytake | hydrop
      · exact absurd (hcap ▸ hytake) hyn
      · have hpair := (List.pairwise_append.mp hsorted).2.2
        have := hpair x (by rw [hcap] at hx; exact hx) y hydrop
        simpa using this
  · intro hle
    unfold capCategories
    rw [if_neg (Nat.not_lt.mpr hle)]

/-- C6 witness: twenty distinct categories with distinct values are capped
to exactly 15 entries. -/
theorem claim_C6_category_cap_witness :
    max_categories < capExample.length ∧
    (capCategories capExample).length = max_categories := by
  have hlen : max_categories < capExample.length := by
    simp [capExample, max_categories]
  exact ⟨hlen, ((claim_C6_category_cap capExample).1 hlen).1⟩

/-! ## C9: scatter coercion -/

/-- C9 counterexample.  The claim says a failed coercion zeroes only the
failing value, leaving the paired value of the same row unaffected; in the
code both conversions sit inside one `try`, so the row `{a: 5, b: "oops"}`
yields x = 0 (not 5) together with y = 0. -/
theorem claim_C9_counterexample :
    (_create_scatter_data scatterQrExample).x_values = [0] ∧
    (_create_scatter_data_claimed scatterQrExample).x_values = [5] ∧
    _create_scatter_data scatterQrExample ≠ _create_scatter_data_claimed scatterQrExample := by
  have hcols : scatterCols scatterQrExample = ("a", "b") := by decide
  have hx : rowGetD [("a", Value.vint 5), ("b", Value.vstr (str "oops"))] "a" (Value.vint 0)
      = Value.vint 5 := by decide
  have hy : rowGetD [("a", Value.vint 5), ("b", Value.vstr (str "oops"))] "b" (Value.vint 0)
      = Value.vstr (str "oops") := by decide
  have hxc : scatterCoerce? (Value.vint 5) = some ((5 : Int) : ℚ) := rfl
  have hyc : scatterCoerce? (Value.vstr (str "oops")) = none := by decide
  have hpair : scatterPair "a" "b" [("a", Value.vint 5), ("b", Value.vstr (str "oops"))]
      = (0, 0) := by
    simp only [scatterPair]
    rw [hx, hy, hxc, hyc]
  have hpairc : scatterPairClaimed "a" "b" [("a", Value.vint 5), ("b", Value.vstr (str "oops"))]
      = (((5 : Int) : ℚ), 0) := by
    simp only [scatterPairClaimed]
    rw [hx, hy, hxc, hyc]
    rfl
  have hxv : (_create_scatter_data scatterQrExample).x_values = [0] := by
    show List.map (fun p => p.1) (scatterQrExample.data.map
      (scatterPair (scatterCols scatterQrExample).1 (scatterCols scatterQrExample).2)) = [0]
    rw [hcols]
    simp only [scatterQrExample, List.map_cons, List.map_nil]
    rw [hpair]
  have hxvc : (_create_scatter_data_claimed scatterQrExample).x_values = [5] := by
    show List.map (fun p => p.1) (scatterQrExample.data.map
      (scatterPairClaimed (scatterCols scatterQrExample).1 (scatterCols scatterQrExample).2))
      = [5]
    rw [hcols]
    simp only [scatterQrExample, List.map_cons, List.map_nil]
    rw [hpairc]
    norm_num
  refine ⟨hxv, hxvc, fun h => ?_⟩
  have hc := congrArg ScatterData.x_values h
  rw [hxv, hxvc] at hc
  have : (0 : ℚ) = 5 := List.head_eq_of_cons_eq hc
  norm_num at this

/-- C9 amended: the scatter builder picks the first two numeric-typed
columns (falling back to the first two columns of any type when fewer than
two numeric columns exist) and maps every row to a coordinate pair; inside a
row, a null value becomes 0 without touching its partner, and when both
coercions succeed each value is converted independently — but when either
coercion raises, both coordinates of that row are set to 0. -/
theorem claim_C9_scatter_amended :
    (∀ qr : QueryResult,
      (_create_scatter_data qr).x_values =
        qr.data.map (fun row => (scatterPair (scatterCols qr).1 (scatterCols qr).2 row).1) ∧
      (_create_scatter_data qr).y_values =
        qr.data.map (fun row => (scatterPair (scatterCols qr).1 (scatterCols qr).2 row).2)) ∧
    (∀ (x_col y_col : String) (row : Row) (a b : ℚ),
      scatterCoerce? (rowGetD row x_col (.vint 0)) = some a →
      scatterCoerce? (rowGetD row y_col (.vint 0)) = some b →
      scatterPair x_col y_col row = (a, b)) ∧
    (∀ (x_col y_col : String) (row : Row),
      scatterCoerce? (rowGetD row x_col (.vint 0)) = none ∨
      scatterCoerce? (rowGetD row y_col (.vint 0)) = none →
      scatterPair x_col y_col row = (0, 0)) ∧
    scatterCoerce? Value.vnull = some 0 := by
  refine ⟨?_, ?_, ?_, rfl⟩
  · intro qr
    constructor
    · show List.map (fun p => p.1) (qr.data.map
        (scatterPair (scatterCols qr).1 (scatterCols qr).2)) = _
      rw [List.map_map]
      rfl
    · show List.map (fun p => p.2) (qr.data.map
        (scatterPair (scatterCols qr).1 (scatterCols qr).2)) = _
      rw [List.map_map]
      rfl
  · intro x_col y_col row a b ha hb
    simp only [scatterPair]
    rw [ha, hb]
  · intro x_col y_col row h
    simp only [scatterPair]
    rcases h with h | h
    · rw [h]
    · rw [h]
      cases scatterCoerce? (rowGetD row x_col (.vint 0)) <;> rfl

/-- C9 witness: the amended row rule at a fully numeric row and at the
counterexample row. -/
theorem claim_C9_scatter_amended_witness :
    scatterPair "a" "b" [("a", Value.vint 5), ("b", Value.vint 7)]
      = (((5 : Int) : ℚ), ((7 : Int) : ℚ)) ∧
    scatterPair "a" "b" [("a", Value.vint 5), ("b", Value.vstr (str "oops"))] = (0, 0) := by
  constructor
  · exact claim_C9_scatter_amended.2.1 "a" "b" _ _ _
      (by rw [(by decide : rowGetD [("a", Value.vint 5), ("b", Value.vint 7)] "a"
        (Value.vint 0) = Value.vint 5)]; rfl)
      (by rw [(by decide : rowGetD [("a", Value.vint 5), ("b", Value.vint 7)] "b"
        (Value.vint 0) = Value.vint 7)]; rfl)
  · exact claim_C9_scatter_amended.2.2.1 "a" "b" _
      (Or.inr (by rw [(by decide : rowGetD [("a", Value.vint 5),
        ("b", Value.vstr (str "oops"))] "b" (Value.vint 0) = Value.vstr (str "oops"))]; decide))

/-! ## C10: visualization creation is total -/

/-- C10: visualization creation returns no chart exactly when the row list
is empty or the hint is absent (and a chart otherwise — it never fails), and
with a too-short column list the bar builder falls back to the placeholder
column names `category` and `value` while the scatter builder falls back to
`value`, instead of indexing out of bounds. -/
theorem claim_C10_visualization_total :
    ∀ (qr : QueryResult) (hint : Option ChartType),
      (create_visualization qr hint = none ↔ (qr.data = [] ∨ hint = none)) ∧
      (qr.columns = [] →
        (_create_bar_data qr).x_label = "category" ∧
        (_create_bar_data qr).y_label = "value") ∧
      (∀ c, qr.columns = [c] → scatterCols qr = (c, "value")) ∧
      (qr.columns = [] → scatterCols qr = ("value", "value")) := by
  intro qr hint
  refine ⟨?_, ?_, ?_, ?_⟩
  · cases hint with
    | none => simp [create_visualization]
    | some ct =>
      cases hd : qr.data with
      | nil => simp [create_visualization, hd]
      | cons r rest => simp [create_visualization, hd]
  · intro hcols
    constructor
    · show chooseTextCol qr = "category"
      unfold chooseTextCol
      rw [hcols]
      rfl
    · show chooseNumericCol qr = "value"
      unfold chooseNumericCol
      rw [hcols]
      rfl
  · intro c hcols
    unfold scatterCols
    rw [hcols]
    by_cases h : isNumVal (sampleVal qr.data c) = true
    · simp [List.filter, h]
    · simp [List.filter, h]
  · intro hcols
    unfold scatterCols
    rw [hcols]
    rfl

/-- C10 witness: a result with rows but an empty column list. -/
theorem claim_C10_visualization_total_witness :
    (create_visualization
        { data := [[("x", Value.vint 1)]], columns := [], row_count := 1,
          execution_time_ms := 0 } (some ChartType.bar) = none ↔
      (([[("x", Value.vint 1)]] : List Row) = [] ∨
        (some ChartType.bar : Option ChartType) = none)) ∧
    (_create_bar_data
        { data := [[("x", Value.vint 1)]], columns := [], row_count := 1,
          execution_time_ms := 0 }).x_label = "category" ∧
    (_create_bar_data
        { data := [[("x", Value.vint 1)]], columns := [], row_count := 1,
          execution_time_ms := 0 }).y_label = "value" ∧
    scatterCols
        { data := [[("x", Value.vint 1)]], columns := [], row_count := 1,
          execution_time_ms := 0 } = ("value", "value") := by
  have h := claim_C10_visualization_total
    { data := [[("x", Value.vint 1)]], columns := [], row_count := 1,
      execution_time_ms := 0 } (some ChartType.bar)
  exact ⟨h.1, (h.2.1 rfl).1, (h.2.1 rfl).2, h.2.2.2 rfl⟩

end DataChatbot
